import Mathlib

/-!
Shallow embedding of the GraphSentinel Voice service (`src/main.py`), a
FastAPI microservice that fans alert messages out to speech synthesis
(ElevenLabs), telephony (Twilio) and chat (Teams webhook) providers, with an
in-memory audio cache.  Handlers are modelled as pure functions over the
process configuration, the responses the upstream providers would give, a
timestamp string (`datetime.now().strftime(...)`) and the current cache
state; each handler returns its result (`Except` for a raised
`HTTPException`), the cache after the call, and the trace of outbound
requests issued to upstream providers.
-/

namespace GSVoice

/-- Process configuration, read from the environment at startup
(`ELEVENLABS_KEY`, `ELEVENLABS_VOICE`, `TWILIO_SID`, `TWILIO_TOKEN`,
`TWILIO_FROM`, `TEAMS_WEBHOOK` in `src/main.py`, lines 30-35).  Missing
variables default to the empty string (except the voice id). -/
structure Config where
  elevenlabsKey : String
  elevenlabsVoice : String
  twilioSid : String
  twilioToken : String
  twilioFrom : String
  teamsWebhook : String
deriving DecidableEq, Repr

/-- A response from an upstream provider: HTTP status, binary body
(`resp.content`, as a byte list), text body (`resp.text`) and the `sid`
field of its JSON body when present (`resp.json().get("sid")`). -/
structure HttpResp where
  status : Nat
  content : List Nat
  text : String
  jsonSid : Option String
deriving DecidableEq, Repr

/-- The responses each upstream provider would give to a request during the
handler run being modelled. -/
structure Upstream where
  elevenlabsResp : HttpResp
  twilioResp : HttpResp
  teamsResp : HttpResp
deriving DecidableEq, Repr

/-- Tag for an outbound request to an upstream provider. -/
inductive Provider where
  | elevenlabs
  | twilio
  | teams
deriving DecidableEq, Repr

/-- A raised `fastapi.HTTPException` (status code and detail string). -/
structure HTTPError where
  status : Nat
  detail : String
deriving DecidableEq, Repr

/-- `str(e)` for an `HTTPException`: `f"{status_code}: {detail}"`. -/
def errString (e : HTTPError) : String :=
  toString e.status ++ ": " ++ e.detail

/-- Python truthiness of a string: `bool(s)` is false exactly on `""`. -/
def pyBool (s : String) : Bool :=
  !(s == "")

/-- Python `a and b` on strings: returns `a` if `a` is falsy, else `b`. -/
def pyAnd (a b : String) : String :=
  if a == "" then a else b

/-- Python `x or y` where `x : Optional[str]` and `y : str`: `y` when `x`
is `None` or the empty string, else the string in `x`
(as in `req.threat_id or f"VOC-..."`). -/
def pyOrStr (x : Option String) (y : String) : String :=
  match x with
  | none => y
  | some s => if s == "" then y else s

/-- Python truthiness of an `Optional[str]`: false on `None` and `""`. -/
def pyBoolOpt (x : Option String) : Bool :=
  match x with
  | none => false
  | some s => !(s == "")

/-- The audio cache `audio_cache = {}` (line 38): a mapping from threat id
to raw audio bytes, modelled as an association list where the most recent
write for a key comes first. -/
def Cache := List (String × List Nat)

instance : DecidableEq Cache := by
  unfold Cache
  infer_instance

/-- The empty cache (the state at process start). -/
def emptyCache : Cache := []

/-- `audio_cache[id] = bytes` — dict assignment: insert or overwrite. -/
def store (id : String) (bytes : List Nat) (c : Cache) : Cache :=
  (id, bytes) :: c

/-- `audio_cache[id]` guarded by `id in audio_cache`: the stored bytes of
the most recent write to `id`, or `none`. -/
def fetch (id : String) : Cache → Option (List Nat)
  | [] => none
  | (k, v) :: rest => if k == id then some v else fetch id rest

/-- Replay a sequence of stores (earliest first) onto a cache. -/
def applyStores (ops : List (String × List Nat)) (c : Cache) : Cache :=
  ops.foldl (fun acc p => store p.1 p.2 acc) c

/-- `VoiceRequest` (lines 41-45). -/
structure VoiceRequest where
  message : String
  language : String
  threat_id : Option String
deriving DecidableEq, Repr

/-- `CallRequest` (lines 48-52). -/
structure CallRequest where
  to_number : String
  message : String
  threat_id : Option String
deriving DecidableEq, Repr

/-- `TeamsRequest` (lines 55-59). -/
structure TeamsRequest where
  message : String
  threat_id : Option String
  include_audio : Bool
deriving DecidableEq, Repr

/-- The capability flags reported by `GET /` (lines 67-71):
`elevenlabs = bool(ELEVENLABS_KEY)`, `twilio = bool(TWILIO_SID and
TWILIO_TOKEN)`, `teams = bool(TEAMS_WEBHOOK)`. -/
structure Capabilities where
  elevenlabs : Bool
  twilio : Bool
  teams : Bool
deriving DecidableEq, Repr

/-- Response of `GET /` (lines 62-72). -/
structure RootResult where
  service : String
  status : String
  capabilities : Capabilities
deriving DecidableEq, Repr

/-- `root` (`GET /`, lines 62-72). -/
def root (cfg : Config) : RootResult :=
  { service := "GraphSentinel Voice"
    status := "operational"
    capabilities :=
      { elevenlabs := pyBool cfg.elevenlabsKey
        twilio := pyBool (pyAnd cfg.twilioSid cfg.twilioToken)
        teams := pyBool cfg.teamsWebhook } }

/-- Success body of `POST /api/generate` (lines 114-118). -/
structure GenerateResult where
  threat_id : String
  audio_url : String
  duration_estimate : Nat
deriving DecidableEq, Repr

/-- `generate_voice` (`POST /api/generate`, lines 83-118): 503 when the
ElevenLabs key is empty; otherwise resolves the threat id, issues one
text-to-speech request, propagates a non-200 upstream status as an
`HTTPException`, and on success caches the audio bytes under the resolved
id and returns id, audio url and `len(message) // 15`. -/
def generate_voice (cfg : Config) (up : Upstream) (now : String)
    (req : VoiceRequest) (cache : Cache) :
    Except HTTPError GenerateResult × Cache × List Provider :=
  if cfg.elevenlabsKey == "" then
    (Except.error ⟨503, "ElevenLabs not configured"⟩, cache, [])
  else
    let threat_id := pyOrStr req.threat_id ("VOC-" ++ now)
    let resp := up.elevenlabsResp
    if resp.status ≠ 200 then
      (Except.error ⟨resp.status, "ElevenLabs error: " ++ resp.text⟩,
        cache, [Provider.elevenlabs])
    else
      (Except.ok
        { threat_id := threat_id
          audio_url := "/api/audio/" ++ threat_id
          duration_estimate := req.message.length / 15 },
        store threat_id resp.content cache, [Provider.elevenlabs])

/-- Response of `GET /api/audio/{threat_id}` on a cache hit
(lines 127-131). -/
structure AudioResponse where
  content : List Nat
  media_type : String
  content_disposition : String
deriving DecidableEq, Repr

/-- `get_audio` (`GET /api/audio/{threat_id}`, lines 121-131): 404 when the
id is absent from the cache, otherwise the cached bytes with an audio media
type and inline-disposition filename. -/
def get_audio (threat_id : String) (cache : Cache) :
    Except HTTPError AudioResponse :=
  match fetch threat_id cache with
  | none => Except.error ⟨404, "Audio not found"⟩
  | some bytes =>
      Except.ok
        { content := bytes
          media_type := "audio/mpeg"
          content_disposition := "inline; filename=" ++ threat_id ++ ".mp3" }

/-- Success body of `POST /api/call` (lines 168-173). -/
structure CallResult where
  status : String
  call_sid : Option String
  «to» : String
  threat_id : String
deriving DecidableEq, Repr

/-- `make_call` (`POST /api/call`, lines 134-173): 503 when any of the
Twilio account id, auth token or sender number is empty
(`not all([TWILIO_SID, TWILIO_TOKEN, TWILIO_FROM])`); otherwise first
invokes `generate_voice` with the same message and threat id (an inner
`HTTPException` propagates), then issues one call-initiation request to
Twilio, propagating a non-2xx status as an `HTTPException`; on success
returns the upstream call sid and the inner call's threat id. -/
def make_call (cfg : Config) (up : Upstream) (now : String)
    (req : CallRequest) (cache : Cache) :
    Except HTTPError CallResult × Cache × List Provider :=
  if ¬(cfg.twilioSid ≠ "" ∧ cfg.twilioToken ≠ "" ∧ cfg.twilioFrom ≠ "") then
    (Except.error ⟨503, "Twilio not configured"⟩, cache, [])
  else
    match generate_voice cfg up now
        { message := req.message, language := "de", threat_id := req.threat_id }
        cache with
    | (Except.error e, c, t) => (Except.error e, c, t)
    | (Except.ok voice_result, c, t) =>
        let resp := up.twilioResp
        if resp.status ≠ 200 ∧ resp.status ≠ 201 then
          (Except.error ⟨resp.status, "Twilio error: " ++ resp.text⟩,
            c, t ++ [Provider.twilio])
        else
          (Except.ok
            { status := "initiated"
              call_sid := resp.jsonSid
              «to» := req.to_number
              threat_id := voice_result.threat_id },
            c, t ++ [Provider.twilio])

/-- Success body of `POST /api/teams` (lines 227-232). -/
structure TeamsResult where
  status : String
  threat_id : String
  channel : String
  audio_generated : Bool
deriving DecidableEq, Repr

/-- `send_teams` (`POST /api/teams`, lines 176-232): 503 when the Teams
webhook URL is empty; resolves the threat id (`TMS-` prefix when absent);
when `include_audio` is set and the ElevenLabs key is non-empty, invokes
`generate_voice` with the same message and the resolved id (an inner
`HTTPException` propagates) and records its audio url; then posts the card
to the webhook, propagating a non-2xx status as an `HTTPException`; on
success reports whether audio was generated. -/
def send_teams (cfg : Config) (up : Upstream) (now : String)
    (req : TeamsRequest) (cache : Cache) :
    Except HTTPError TeamsResult × Cache × List Provider :=
  if cfg.teamsWebhook == "" then
    (Except.error ⟨503, "Teams webhook not configured"⟩, cache, [])
  else
    let threat_id := pyOrStr req.threat_id ("TMS-" ++ now)
    let audioStep : Except (HTTPError × Cache × List Provider)
        (Option String × Cache × List Provider) :=
      if req.include_audio ∧ cfg.elevenlabsKey ≠ "" then
        match generate_voice cfg up now
            { message := req.message, language := "de",
              threat_id := some threat_id } cache with
        | (Except.error e, c, t) => Except.error (e, c, t)
        | (Except.ok voice_result, c, t) =>
            Except.ok (some voice_result.audio_url, c, t)
      else
        Except.ok (none, cache, [])
    match audioStep with
    | Except.error (e, c, t) => (Except.error e, c, t)
    | Except.ok (audio_url, c, t) =>
        let resp := up.teamsResp
        if resp.status ≠ 200 ∧ resp.status ≠ 201 then
          (Except.error ⟨resp.status, "Teams error: " ++ resp.text⟩,
            c, t ++ [Provider.teams])
        else
          (Except.ok
            { status := "sent"
              threat_id := threat_id
              channel := "teams"
              audio_generated := audio_url.isSome },
            c, t ++ [Provider.teams])

/-- One entry of the orchestrator's per-channel result map: a channel
success body, or the `{"error": str(e)}` object recording a caught
exception. -/
inductive ChannelResult where
  | teamsOk (r : TeamsResult)
  | callOk (r : CallResult)
  | voiceOk (r : GenerateResult)
  | err (msg : String)
deriving DecidableEq, Repr

/-- `results[key]` on the orchestrator's result map. -/
def lookupRes (key : String) : List (String × ChannelResult) → Option ChannelResult
  | [] => none
  | (k, v) :: rest => if k == key then some v else lookupRes key rest

/-- The `"teams"` branch of `send_alert` (lines 246-253): attempted only
when `"teams"` is requested and the webhook URL is non-empty; an exception
from `send_teams` is caught and recorded as an error entry. -/
def alertTeams (cfg : Config) (up : Upstream) (now : String)
    (message threat_id : String) (channels : List String) (cache : Cache) :
    List (String × ChannelResult) × Cache × List Provider :=
  if "teams" ∈ channels ∧ cfg.teamsWebhook ≠ "" then
    match send_teams cfg up now
        { message := message, threat_id := some threat_id,
          include_audio := true } cache with
    | (Except.ok r, c, t) => ([("teams", ChannelResult.teamsOk r)], c, t)
    | (Except.error e, c, t) =>
        ([("teams", ChannelResult.err (errString e))], c, t)
  else ([], cache, [])

/-- The `"call"` branch of `send_alert` (lines 255-263): attempted only
when `"call"` is requested, a truthy phone number was supplied, and
`TWILIO_SID` is non-empty; an exception from `make_call` is caught and
recorded as an error entry. -/
def alertCall (cfg : Config) (up : Upstream) (now : String)
    (message threat_id : String) (channels : List String)
    (phone : Option String) (cache : Cache) :
    List (String × ChannelResult) × Cache × List Provider :=
  if "call" ∈ channels ∧ pyBoolOpt phone = true ∧ cfg.twilioSid ≠ "" then
    match make_call cfg up now
        { to_number := phone.getD "", message := message,
          threat_id := some threat_id } cache with
    | (Except.ok r, c, t) => ([("call", ChannelResult.callOk r)], c, t)
    | (Except.error e, c, t) =>
        ([("call", ChannelResult.err (errString e))], c, t)
  else ([], cache, [])

/-- The `"voice"` branch of `send_alert` (lines 265-272): attempted only
when `"voice"` is requested and the ElevenLabs key is non-empty; an
exception from `generate_voice` is caught and recorded as an error
entry. -/
def alertVoice (cfg : Config) (up : Upstream) (now : String)
    (message threat_id : String) (channels : List String) (cache : Cache) :
    List (String × ChannelResult) × Cache × List Provider :=
  if "voice" ∈ channels ∧ cfg.elevenlabsKey ≠ "" then
    match generate_voice cfg up now
        { message := message, language := "de", threat_id := some threat_id }
        cache with
    | (Except.ok r, c, t) => ([("voice", ChannelResult.voiceOk r)], c, t)
    | (Except.error e, c, t) =>
        ([("voice", ChannelResult.err (errString e))], c, t)
  else ([], cache, [])

/-- Response of `POST /api/alert` (lines 274-277). -/
structure AlertResult where
  threat_id : String
  channels : List (String × ChannelResult)
deriving DecidableEq, Repr

/-- `send_alert` (`POST /api/alert`, lines 235-277): resolves a shared
threat id (`ALT-` prefix when absent), then attempts the teams, call and
voice branches in source order, each against the cache state the previous
branch left; never raises, returning the shared id and the per-channel
result map. -/
def send_alert (cfg : Config) (up : Upstream) (now : String)
    (message : String) (channels : List String) (phone : Option String)
    (tid : Option String) (cache : Cache) :
    AlertResult × Cache × List Provider :=
  let threat_id := pyOrStr tid ("ALT-" ++ now)
  match alertTeams cfg up now message threat_id channels cache with
  | (r1, c1, t1) =>
    match alertCall cfg up now message threat_id channels phone c1 with
    | (r2, c2, t2) =>
      match alertVoice cfg up now message threat_id channels c2 with
      | (r3, c3, t3) =>
          ({ threat_id := threat_id, channels := r1 ++ r2 ++ r3 },
            c3, t1 ++ t2 ++ t3)

/-! ## Helper lemmas -/

theorem fetch_store_self (id : String) (bytes : List Nat) (c : Cache) :
    fetch id (store id bytes c) = some bytes := by
  simp [fetch, store]

theorem fetch_store_other (k id : String) (h : k ≠ id) (bytes : List Nat)
    (c : Cache) : fetch id (store k bytes c) = fetch id c := by
  simp [fetch, store, h]

theorem fetch_applyStores_of_no_key {id : String}
    (ops : List (String × List Nat)) (c : Cache)
    (h : ∀ p ∈ ops, p.1 ≠ id) :
    fetch id (applyStores ops c) = fetch id c := by
  induction ops generalizing c with
  | nil => rfl
  | cons p rest ih =>
      have hp : p.1 ≠ id := h p (List.mem_cons_self p rest)
      have hrest : ∀ q ∈ rest, q.1 ≠ id := fun q hq =>
        h q (List.mem_cons_of_mem p hq)
      calc fetch id (applyStores (p :: rest) c)
          = fetch id (applyStores rest (store p.1 p.2 c)) := rfl
        _ = fetch id (store p.1 p.2 c) := ih _ hrest
        _ = fetch id c := fetch_store_other p.1 id hp p.2 c

theorem fetch_emptyCache (id : String) : fetch id emptyCache = none := rfl

theorem prefixed_ne_empty (p now : String) (hp : p.length ≠ 0) :
    ((p ++ now) == "") = false := by
  simp only [beq_eq_false_iff_ne, ne_eq]
  intro h
  have h2 := congrArg String.length h
  simp [String.length_append] at h2
  exact absurd h2.1 hp

theorem pyOrStr_some_ne (s : String) (h : (s == "") = false)
    (y : String) : pyOrStr (some s) y = s := by
  simp [pyOrStr, h]

theorem generate_voice_no_key (cfg : Config) (up : Upstream) (now : String)
    (req : VoiceRequest) (cache : Cache) (hKey : cfg.elevenlabsKey = "") :
    generate_voice cfg up now req cache =
      (Except.error ⟨503, "ElevenLabs not configured"⟩, cache, []) := by
  simp [generate_voice, hKey]

theorem generate_voice_ok (cfg : Config) (up : Upstream) (now : String)
    (req : VoiceRequest) (cache : Cache) (hKey : cfg.elevenlabsKey ≠ "")
    (hUp : up.elevenlabsResp.status = 200) :
    generate_voice cfg up now req cache =
      (Except.ok
        { threat_id := pyOrStr req.threat_id ("VOC-" ++ now)
          audio_url := "/api/audio/" ++ pyOrStr req.threat_id ("VOC-" ++ now)
          duration_estimate := req.message.length / 15 },
        store (pyOrStr req.threat_id ("VOC-" ++ now))
          up.elevenlabsResp.content cache,
        [Provider.elevenlabs]) := by
  simp [generate_voice, hKey, hUp]

theorem make_call_no_twilio (cfg : Config) (up : Upstream) (now : String)
    (req : CallRequest) (cache : Cache)
    (hDis : cfg.twilioSid = "" ∨ cfg.twilioToken = "" ∨ cfg.twilioFrom = "") :
    make_call cfg up now req cache =
      (Except.error ⟨503, "Twilio not configured"⟩, cache, []) := by
  unfold make_call
  rw [if_pos]
  tauto

theorem make_call_no_speech (cfg : Config) (up : Upstream) (now : String)
    (req : CallRequest) (cache : Cache)
    (hSid : cfg.twilioSid ≠ "") (hTok : cfg.twilioToken ≠ "")
    (hFrom : cfg.twilioFrom ≠ "") (hKey : cfg.elevenlabsKey = "") :
    make_call cfg up now req cache =
      (Except.error ⟨503, "ElevenLabs not configured"⟩, cache, []) := by
  unfold make_call
  rw [if_neg (by tauto),
    generate_voice_no_key cfg up now _ cache hKey]

theorem make_call_twilio_fail (cfg : Config) (up : Upstream) (now : String)
    (req : CallRequest) (cache : Cache)
    (hSid : cfg.twilioSid ≠ "") (hTok : cfg.twilioToken ≠ "")
    (hFrom : cfg.twilioFrom ≠ "") (hKey : cfg.elevenlabsKey ≠ "")
    (hE : up.elevenlabsResp.status = 200)
    (hT1 : up.twilioResp.status ≠ 200) (hT2 : up.twilioResp.status ≠ 201) :
    make_call cfg up now req cache =
      (Except.error ⟨up.twilioResp.status,
          "Twilio error: " ++ up.twilioResp.text⟩,
        store (pyOrStr req.threat_id ("VOC-" ++ now))
          up.elevenlabsResp.content cache,
        [Provider.elevenlabs, Provider.twilio]) := by
  unfold make_call
  rw [if_neg (by tauto), generate_voice_ok cfg up now _ cache hKey hE]
  simp [hT1, hT2]

theorem send_teams_ok (cfg : Config) (up : Upstream) (now : String)
    (req : TeamsRequest) (cache : Cache) (hW : cfg.teamsWebhook ≠ "")
    (hT : up.teamsResp.status = 200 ∨ up.teamsResp.status = 201)
    (hAudio : cfg.elevenlabsKey = "" ∨ up.elevenlabsResp.status = 200) :
    ∃ r c t, send_teams cfg up now req cache = (Except.ok r, c, t) ∧
      r.status = "sent" ∧ r.channel = "teams" ∧
      r.threat_id = pyOrStr req.threat_id ("TMS-" ++ now) := by
  by_cases hStep : req.include_audio ∧ cfg.elevenlabsKey ≠ ""
  · have hUp : up.elevenlabsResp.status = 200 := by tauto
    unfold send_teams
    rw [if_neg (by simpa using hW)]
    simp only [if_pos hStep, generate_voice_ok cfg up now _ cache hStep.2 hUp]
    rcases hT with hT | hT <;> simp [hT]
  · unfold send_teams
    rw [if_neg (by simpa using hW)]
    simp only [if_neg hStep]
    rcases hT with hT | hT <;> simp [hT]

theorem alertTeams_no_teams (cfg : Config) (up : Upstream) (now : String)
    (message threat_id : String) (channels : List String) (cache : Cache)
    (h : "teams" ∉ channels) :
    alertTeams cfg up now message threat_id channels cache =
      ([], cache, []) := by
  simp [alertTeams, h]

theorem alertTeams_ok (cfg : Config) (up : Upstream) (now : String)
    (message threat_id : String) (channels : List String) (cache : Cache)
    (hMem : "teams" ∈ channels) (hW : cfg.teamsWebhook ≠ "")
    (hT : up.teamsResp.status = 200 ∨ up.teamsResp.status = 201)
    (hAudio : cfg.elevenlabsKey = "" ∨ up.elevenlabsResp.status = 200) :
    ∃ r c t, alertTeams cfg up now message threat_id channels cache =
      ([("teams", ChannelResult.teamsOk r)], c, t) := by
  obtain ⟨r, c, t, heq, -⟩ := send_teams_ok cfg up now
    { message := message, threat_id := some threat_id,
      include_audio := true } cache hW hT hAudio
  refine ⟨r, c, t, ?_⟩
  simp [alertTeams, hMem, hW, heq]

theorem alertCall_no_call (cfg : Config) (up : Upstream) (now : String)
    (message threat_id : String) (channels : List String)
    (phone : Option String) (cache : Cache) (h : "call" ∉ channels) :
    alertCall cfg up now message threat_id channels phone cache =
      ([], cache, []) := by
  simp [alertCall, h]

theorem alertCall_no_sid (cfg : Config) (up : Upstream) (now : String)
    (message threat_id : String) (channels : List String)
    (phone : Option String) (cache : Cache) (h : cfg.twilioSid = "") :
    alertCall cfg up now message threat_id channels phone cache =
      ([], cache, []) := by
  simp [alertCall, h]

theorem alertCall_twilio_disabled (cfg : Config) (up : Upstream)
    (now : String) (message threat_id : String) (channels : List String)
    (phone : Option String) (cache : Cache) (hMem : "call" ∈ channels)
    (hPhone : pyBoolOpt phone = true) (hSid : cfg.twilioSid ≠ "")
    (hDis : cfg.twilioToken = "" ∨ cfg.twilioFrom = "") :
    alertCall cfg up now message threat_id channels phone cache =
      ([("call",
          ChannelResult.err (errString ⟨503, "Twilio not configured"⟩))],
        cache, []) := by
  have hmc := make_call_no_twilio cfg up now
    { to_number := phone.getD "", message := message,
      threat_id := some threat_id } cache (by tauto)
  simp [alertCall, hMem, hPhone, hSid, hmc]

theorem alertVoice_no_voice (cfg : Config) (up : Upstream) (now : String)
    (message threat_id : String) (channels : List String) (cache : Cache)
    (h : "voice" ∉ channels) :
    alertVoice cfg up now message threat_id channels cache =
      ([], cache, []) := by
  simp [alertVoice, h]

theorem alertVoice_ok (cfg : Config) (up : Upstream) (now : String)
    (message threat_id : String) (channels : List String) (cache : Cache)
    (hMem : "voice" ∈ channels) (hKey : cfg.elevenlabsKey ≠ "")
    (hUp : up.elevenlabsResp.status = 200)
    (hTid : (threat_id == "") = false) :
    alertVoice cfg up now message threat_id channels cache =
      ([("voice", ChannelResult.voiceOk
          { threat_id := threat_id
            audio_url := "/api/audio/" ++ threat_id
            duration_estimate := message.length / 15 })],
        store threat_id up.elevenlabsResp.content cache,
        [Provider.elevenlabs]) := by
  have hg := generate_voice_ok cfg up now
    { message := message, language := "de", threat_id := some threat_id }
    cache hKey hUp
  rw [pyOrStr_some_ne threat_id hTid] at hg
  simp [alertVoice, hMem, hKey, hg]

/-! ## Claim theorems -/

/-- C4: for every identifier `id` and byte payload `bytes`, fetching `id`
from the Audio Cache after storing `bytes` under `id` returns exactly
`bytes`, provided no intervening store to the same `id` occurred (here:
any sequence of intervening stores, none keyed by `id`). -/
theorem cache_round_trip (id : String) (bytes : List Nat) (c : Cache)
    (ops : List (String × List Nat)) (h : ∀ p ∈ ops, p.1 ≠ id) :
    fetch id (applyStores ops (store id bytes c)) = some bytes := by
  rw [fetch_applyStores_of_no_key ops _ h, fetch_store_self]

/-- Witness for `cache_round_trip` at a concrete id, payload and
intervening store. -/
theorem cache_round_trip_witness :
    fetch "VOC-1" (applyStores [("TMS-2", [7])]
      (store "VOC-1" [1, 2, 3] emptyCache)) = some [1, 2, 3] :=
  cache_round_trip "VOC-1" [1, 2, 3] emptyCache [("TMS-2", [7])] (by decide)

/-- C8: for every identifier never stored in the Audio Cache (a cache
built from the empty one by stores all keyed differently), audio retrieval
fails with a 404 rather than returning any payload. -/
theorem audio_never_stored_404 (id : String)
    (ops : List (String × List Nat)) (h : ∀ p ∈ ops, p.1 ≠ id) :
    get_audio id (applyStores ops emptyCache) =
      Except.error ⟨404, "Audio not found"⟩ := by
  unfold get_audio
  rw [fetch_applyStores_of_no_key ops _ h, fetch_emptyCache]

/-- Witness for `audio_never_stored_404` at a concrete id and store
history. -/
theorem audio_never_stored_404_witness :
    get_audio "VOC-9" (applyStores [("ALT-1", [4, 5])] emptyCache) =
      Except.error ⟨404, "Audio not found"⟩ :=
  audio_never_stored_404 "VOC-9" [("ALT-1", [4, 5])] (by decide)

/-- C5: for every non-empty message, a successful speech synthesis returns
a `duration_estimate` equal to `⌊len(message) / 15⌋` (Nat division, which
is the floor). -/
theorem duration_estimate_floor (cfg : Config) (up : Upstream)
    (now : String) (req : VoiceRequest) (cache : Cache)
    (hKey : cfg.elevenlabsKey ≠ "") (hUp : up.elevenlabsResp.status = 200)
    (_hMsg : req.message ≠ "") :
    ∃ r c t, generate_voice cfg up now req cache = (Except.ok r, c, t) ∧
      r.duration_estimate = req.message.length / 15 := by
  rw [generate_voice_ok cfg up now req cache hKey hUp]
  exact ⟨_, _, _, rfl, rfl⟩

/-- Witness for `duration_estimate_floor` on a concrete 26-character
message (estimate 1). -/
theorem duration_estimate_floor_witness :
    ∃ r c t,
      generate_voice ⟨"k", "v", "", "", "", ""⟩ ⟨⟨200, [1], "", none⟩,
        ⟨200, [], "", none⟩, ⟨200, [], "", none⟩⟩ "20250101"
        ⟨"Intrusion detected on node", "de", none⟩ emptyCache =
        (Except.ok r, c, t) ∧
      r.duration_estimate = "Intrusion detected on node".length / 15 :=
  duration_estimate_floor _ _ _ _ _ (by decide) rfl (by decide)

/-- C3: when a capability's required configuration values are absent, the
corresponding endpoint (generate, call, teams) fails with a 503
not-configured error naming the missing provider, regardless of the
request body contents.  The three implications are independent: each
assumes only that its own capability's configuration is absent, with the
rest of the configuration unconstrained. -/
theorem endpoints_503_when_unconfigured (cfg : Config) (up : Upstream)
    (now : String) (vreq : VoiceRequest) (creq : CallRequest)
    (treq : TeamsRequest) (cache : Cache) :
    (cfg.elevenlabsKey = "" →
      generate_voice cfg up now vreq cache =
        (Except.error ⟨503, "ElevenLabs not configured"⟩, cache, [])) ∧
    (cfg.twilioSid = "" ∨ cfg.twilioToken = "" ∨ cfg.twilioFrom = "" →
      make_call cfg up now creq cache =
        (Except.error ⟨503, "Twilio not configured"⟩, cache, [])) ∧
    (cfg.teamsWebhook = "" →
      send_teams cfg up now treq cache =
        (Except.error ⟨503, "Teams webhook not configured"⟩, cache, [])) := by
  refine ⟨fun hKey => generate_voice_no_key cfg up now vreq cache hKey,
    fun hTw => make_call_no_twilio cfg up now creq cache hTw,
    fun hWeb => ?_⟩
  simp [send_teams, hWeb]

/-- Witness for `endpoints_503_when_unconfigured`, discharging each of the
three hypotheses: the call conjunct at a configuration where only
telephony is unconfigured (speech and chat keys present), and the
generate and teams conjuncts at configurations missing only that
capability's values. -/
theorem endpoints_503_when_unconfigured_witness :
    generate_voice ⟨"", "v", "AC1", "tok", "+49555", "wh"⟩
        ⟨⟨200, [], "", none⟩, ⟨200, [], "", none⟩, ⟨200, [], "", none⟩⟩
        "20250101" ⟨"hello", "de", none⟩ emptyCache =
      (Except.error ⟨503, "ElevenLabs not configured"⟩, emptyCache, []) ∧
    make_call ⟨"k", "v", "", "", "", "wh"⟩ ⟨⟨200, [], "", none⟩,
        ⟨200, [], "", none⟩, ⟨200, [], "", none⟩⟩ "20250101"
        ⟨"+491234", "hello", none⟩ emptyCache =
      (Except.error ⟨503, "Twilio not configured"⟩, emptyCache, []) ∧
    send_teams ⟨"k", "v", "AC1", "tok", "+49555", ""⟩ ⟨⟨200, [], "", none⟩,
        ⟨200, [], "", none⟩, ⟨200, [], "", none⟩⟩ "20250101"
        ⟨"hello", none, true⟩ emptyCache =
      (Except.error ⟨503, "Teams webhook not configured"⟩, emptyCache, []) :=
  ⟨(endpoints_503_when_unconfigured ⟨"", "v", "AC1", "tok", "+49555", "wh"⟩
      ⟨⟨200, [], "", none⟩, ⟨200, [], "", none⟩, ⟨200, [], "", none⟩⟩
      "20250101" ⟨"hello", "de", none⟩ ⟨"+491234", "hello", none⟩
      ⟨"hello", none, true⟩ emptyCache).1 rfl,
   (endpoints_503_when_unconfigured ⟨"k", "v", "", "", "", "wh"⟩
      ⟨⟨200, [], "", none⟩, ⟨200, [], "", none⟩, ⟨200, [], "", none⟩⟩
      "20250101" ⟨"hello", "de", none⟩ ⟨"+491234", "hello", none⟩
      ⟨"hello", none, true⟩ emptyCache).2.1 (Or.inl rfl),
   (endpoints_503_when_unconfigured ⟨"k", "v", "AC1", "tok", "+49555", ""⟩
      ⟨⟨200, [], "", none⟩, ⟨200, [], "", none⟩, ⟨200, [], "", none⟩⟩
      "20250101" ⟨"hello", "de", none⟩ ⟨"+491234", "hello", none⟩
      ⟨"hello", none, true⟩ emptyCache).2.2 rfl⟩

/-- C7: for every call request, when telephony is disabled (any of account
id, auth token, sender number empty), `POST /api/call` fails with a 503
naming Twilio, the Audio Cache is returned unchanged, and no upstream
request is issued. -/
theorem call_disabled_cache_unchanged (cfg : Config) (up : Upstream)
    (now : String) (req : CallRequest) (cache : Cache)
    (hDis : cfg.twilioSid = "" ∨ cfg.twilioToken = "" ∨ cfg.twilioFrom = "") :
    make_call cfg up now req cache =
      (Except.error ⟨503, "Twilio not configured"⟩, cache, []) :=
  make_call_no_twilio cfg up now req cache hDis

/-- Witness for `call_disabled_cache_unchanged` with only the sender
number missing. -/
theorem call_disabled_cache_unchanged_witness :
    make_call ⟨"k", "v", "AC1", "tok", "", "w"⟩ ⟨⟨200, [9], "", none⟩,
        ⟨201, [], "", some "CA1"⟩, ⟨200, [], "", none⟩⟩ "20250101"
        ⟨"+491234", "hello", none⟩ emptyCache =
      (Except.error ⟨503, "Twilio not configured"⟩, emptyCache, []) :=
  call_disabled_cache_unchanged _ _ _ _ _ (Or.inr (Or.inr rfl))

/-- C9: for every call request, when telephony is fully configured but the
speech capability is disabled (empty ElevenLabs key), `POST /api/call`
fails with a 503 naming ElevenLabs, and the outbound trace is empty — in
particular no request is issued to the telephony provider. -/
theorem call_fails_before_twilio_when_no_speech (cfg : Config)
    (up : Upstream) (now : String) (req : CallRequest) (cache : Cache)
    (hSid : cfg.twilioSid ≠ "") (hTok : cfg.twilioToken ≠ "")
    (hFrom : cfg.twilioFrom ≠ "") (hKey : cfg.elevenlabsKey = "") :
    make_call cfg up now req cache =
      (Except.error ⟨503, "ElevenLabs not configured"⟩, cache, []) ∧
    Provider.twilio ∉ (make_call cfg up now req cache).2.2 := by
  have h := make_call_no_speech cfg up now req cache hSid hTok hFrom hKey
  exact ⟨h, by rw [h]; simp⟩

/-- Witness for `call_fails_before_twilio_when_no_speech` on a fully
Twilio-configured, speech-unconfigured environment. -/
theorem call_fails_before_twilio_when_no_speech_witness :
    make_call ⟨"", "v", "AC1", "tok", "+49555", "w"⟩ ⟨⟨200, [9], "", none⟩,
        ⟨201, [], "", some "CA1"⟩, ⟨200, [], "", none⟩⟩ "20250101"
        ⟨"+491234", "hello", none⟩ emptyCache =
      (Except.error ⟨503, "ElevenLabs not configured"⟩, emptyCache, []) ∧
    Provider.twilio ∉ (make_call ⟨"", "v", "AC1", "tok", "+49555", "w"⟩
        ⟨⟨200, [9], "", none⟩, ⟨201, [], "", some "CA1"⟩,
          ⟨200, [], "", none⟩⟩ "20250101"
        ⟨"+491234", "hello", none⟩ emptyCache).2.2 :=
  call_fails_before_twilio_when_no_speech _ _ _ _ _ (by decide) (by decide)
    (by decide) rfl

/-- C10: for every call request where the inner speech synthesis succeeds
but Twilio responds with a failing status, `POST /api/call` raises an
upstream error, yet the Audio Cache afterwards still contains the audio
stored under the resolved identifier (the cache write is not rolled
back). -/
theorem call_upstream_error_keeps_cache (cfg : Config) (up : Upstream)
    (now : String) (req : CallRequest) (cache : Cache)
    (hSid : cfg.twilioSid ≠ "") (hTok : cfg.twilioToken ≠ "")
    (hFrom : cfg.twilioFrom ≠ "") (hKey : cfg.elevenlabsKey ≠ "")
    (hE : up.elevenlabsResp.status = 200)
    (hT1 : up.twilioResp.status ≠ 200) (hT2 : up.twilioResp.status ≠ 201) :
    (make_call cfg up now req cache).1 =
      Except.error ⟨up.twilioResp.status,
        "Twilio error: " ++ up.twilioResp.text⟩ ∧
    fetch (pyOrStr req.threat_id ("VOC-" ++ now))
        (make_call cfg up now req cache).2.1 =
      some up.elevenlabsResp.content := by
  rw [make_call_twilio_fail cfg up now req cache hSid hTok hFrom hKey hE hT1 hT2]
  exact ⟨rfl, fetch_store_self _ _ _⟩

/-- Witness for `call_upstream_error_keeps_cache`: Twilio answers 400, the
synthesized bytes stay cached under the generated `VOC-` id. -/
theorem call_upstream_error_keeps_cache_witness :
    (make_call ⟨"k", "v", "AC1", "tok", "+49555", "w"⟩ ⟨⟨200, [9, 9], "ok",
        none⟩, ⟨400, [], "bad request", none⟩, ⟨200, [], "", none⟩⟩
        "20250101" ⟨"+491234", "hello", none⟩ emptyCache).1 =
      Except.error ⟨400, "Twilio error: " ++ "bad request"⟩ ∧
    fetch (pyOrStr none ("VOC-" ++ "20250101"))
        (make_call ⟨"k", "v", "AC1", "tok", "+49555", "w"⟩ ⟨⟨200, [9, 9],
          "ok", none⟩, ⟨400, [], "bad request", none⟩, ⟨200, [], "", none⟩⟩
          "20250101" ⟨"+491234", "hello", none⟩ emptyCache).2.1 =
      some [9, 9] :=
  call_upstream_error_keeps_cache _ _ _ _ _ (by decide) (by decide)
    (by decide) (by decide) rfl (by decide) (by decide)

/-- C2 counterexample: with account id and auth token set but the sender
number empty, `GET /` reports the telephony capability as enabled, even
though the telephony capability's required sender number is empty — so the
flag is not "true iff account id, auth token, and sender number are all
non-empty". -/
theorem root_twilio_flag_counterexample :
    (root ⟨"k", "v", "AC1", "tok", "", "wh"⟩).capabilities.twilio = true ∧
    (⟨"k", "v", "AC1", "tok", "", "wh"⟩ : Config).twilioFrom = "" := by
  constructor <;> rfl

/-- C2 (amended): the `GET /` capability flags report speech enabled iff
the ElevenLabs key is non-empty and chat enabled iff the webhook URL is
non-empty; the telephony flag is true iff account id and auth token are
both non-empty — the sender number is not consulted, even though the call
endpoint itself also requires it. -/
theorem root_capability_flags (cfg : Config) :
    ((root cfg).capabilities.elevenlabs = true ↔ cfg.elevenlabsKey ≠ "") ∧
    ((root cfg).capabilities.twilio = true ↔
      cfg.twilioSid ≠ "" ∧ cfg.twilioToken ≠ "") ∧
    ((root cfg).capabilities.teams = true ↔ cfg.teamsWebhook ≠ "") := by
  refine ⟨?_, ?_, ?_⟩
  · simp [root, pyBool]
  · by_cases h : cfg.twilioSid = "" <;> simp [root, pyBool, pyAnd, h]
  · simp [root, pyBool]

/-- C6: dispatching with channels `["voice"]`, speech enabled, no
caller-supplied identifier and the upstream synthesis succeeding yields a
`voice` entry of the same shape as a direct generate success — threat id,
audio url and duration estimate — whose threat id is the shared
`ALT-<timestamp>` identifier, not a freshly generated `VOC-` one. -/
theorem alert_voice_shares_alt_id (cfg : Config) (up : Upstream)
    (now message : String) (phone : Option String) (cache : Cache)
    (hKey : cfg.elevenlabsKey ≠ "") (hUp : up.elevenlabsResp.status = 200) :
    (send_alert cfg up now message ["voice"] phone none cache).1 =
      { threat_id := "ALT-" ++ now
        channels := [("voice", ChannelResult.voiceOk
          { threat_id := "ALT-" ++ now
            audio_url := "/api/audio/" ++ ("ALT-" ++ now)
            duration_estimate := message.length / 15 })] } := by
  have hne : (("ALT-" ++ now) == "") = false :=
    prefixed_ne_empty "ALT-" now (by decide)
  have h1 := alertTeams_no_teams cfg up now message
    (pyOrStr none ("ALT-" ++ now)) ["voice"] cache (by decide)
  have h2 := alertCall_no_call cfg up now message ("ALT-" ++ now)
    ["voice"] phone cache (by decide)
  have h3 := alertVoice_ok cfg up now message
    ("ALT-" ++ now) ["voice"] cache (by decide) hKey hUp hne
  simp only [pyOrStr] at h1
  simp only [send_alert, pyOrStr, h1, h2, h3, List.nil_append]

/-- Witness for `alert_voice_shares_alt_id` on a concrete environment and
message. -/
theorem alert_voice_shares_alt_id_witness :
    (send_alert ⟨"k", "v", "", "", "", ""⟩ ⟨⟨200, [3], "", none⟩,
        ⟨200, [], "", none⟩, ⟨200, [], "", none⟩⟩ "20250101" "test"
        ["voice"] none none emptyCache).1 =
      { threat_id := "ALT-" ++ "20250101"
        channels := [("voice", ChannelResult.voiceOk
          { threat_id := "ALT-" ++ "20250101"
            audio_url := "/api/audio/" ++ ("ALT-" ++ "20250101")
            duration_estimate := "test".length / 15 })] } :=
  alert_voice_shares_alt_id _ _ _ _ _ _ (by decide) rfl

/-- C1 counterexample: with chat enabled, telephony disabled because
`TWILIO_SID` is empty, a phone number supplied, and all upstreams
answering 200, dispatching channels `["teams", "call"]` yields a result
map whose `"teams"` entry is a success but which contains no `"call"` key
at all — the claim's required error entry under `"call"` is omitted. -/
theorem alert_call_key_omitted_counterexample :
    lookupRes "teams" (send_alert ⟨"", "v", "", "", "", "wh"⟩
        ⟨⟨200, [], "", none⟩, ⟨200, [], "", none⟩, ⟨200, [], "", none⟩⟩
        "20250101" "msg" ["teams", "call"] (some "+49123") none
        emptyCache).1.channels =
      some (ChannelResult.teamsOk
        { status := "sent", threat_id := "ALT-20250101",
          channel := "teams", audio_generated := false }) ∧
    lookupRes "call" (send_alert ⟨"", "v", "", "", "", "wh"⟩
        ⟨⟨200, [], "", none⟩, ⟨200, [], "", none⟩, ⟨200, [], "", none⟩⟩
        "20250101" "msg" ["teams", "call"] (some "+49123") none
        emptyCache).1.channels = none := by
  constructor <;> rfl

/-- C1 (amended): dispatching channels `["teams", "call"]` with chat
enabled (and its upstream accepting) and telephony disabled yields a
result map with a success entry under `"teams"`; under `"call"` it holds
an error entry when `TWILIO_SID` is non-empty (the branch is attempted and
the 503 is caught), but when `TWILIO_SID` is empty the `"call"` key is
omitted entirely. -/
theorem alert_teams_call_telephony_disabled (cfg : Config) (up : Upstream)
    (now message : String) (phone : Option String) (tid : Option String)
    (cache : Cache) (hW : cfg.teamsWebhook ≠ "")
    (hT : up.teamsResp.status = 200 ∨ up.teamsResp.status = 201)
    (hAudio : cfg.elevenlabsKey = "" ∨ up.elevenlabsResp.status = 200)
    (hPhone : pyBoolOpt phone = true)
    (hDis : ¬(cfg.twilioSid ≠ "" ∧ cfg.twilioToken ≠ "" ∧
      cfg.twilioFrom ≠ "")) :
    (∃ r, lookupRes "teams" (send_alert cfg up now message
        ["teams", "call"] phone tid cache).1.channels =
      some (ChannelResult.teamsOk r)) ∧
    (cfg.twilioSid = "" → lookupRes "call" (send_alert cfg up now message
        ["teams", "call"] phone tid cache).1.channels = none) ∧
    (cfg.twilioSid ≠ "" → lookupRes "call" (send_alert cfg up now message
        ["teams", "call"] phone tid cache).1.channels =
      some (ChannelResult.err
        (errString ⟨503, "Twilio not configured"⟩))) := by
  obtain ⟨r, c1, t1, h1⟩ := alertTeams_ok cfg up now
    message (pyOrStr tid ("ALT-" ++ now)) ["teams", "call"]
    cache (by decide) hW hT hAudio
  have h3 : ∀ c : Cache, alertVoice cfg up now message
      (pyOrStr tid ("ALT-" ++ now)) ["teams", "call"] c = ([], c, []) :=
    fun c => alertVoice_no_voice cfg up now message _ ["teams", "call"] c (by decide)
  by_cases hSid : cfg.twilioSid = ""
  · have h2 := alertCall_no_sid cfg up now message
      (pyOrStr tid ("ALT-" ++ now)) ["teams", "call"] phone c1 hSid
    refine ⟨⟨r, ?_⟩, fun _ => ?_, fun hc => absurd hSid hc⟩ <;>
      simp [send_alert, h1, h2, h3, lookupRes]
  · have hTF : cfg.twilioToken = "" ∨ cfg.twilioFrom = "" := by tauto
    have h2 := alertCall_twilio_disabled cfg up now message
      (pyOrStr tid ("ALT-" ++ now)) ["teams", "call"]
      phone c1 (by decide) hPhone hSid hTF
    refine ⟨⟨r, ?_⟩, fun hc => absurd hc hSid, fun _ => ?_⟩ <;>
      simp [send_alert, h1, h2, h3, lookupRes]

/-- Witness for `alert_teams_call_telephony_disabled`: account id present
but auth token and sender number empty, so the `"call"` branch is
attempted and records the caught 503. -/
theorem alert_teams_call_telephony_disabled_witness :
    (∃ r, lookupRes "teams" (send_alert ⟨"", "v", "AC1", "", "", "wh"⟩
        ⟨⟨200, [], "", none⟩, ⟨200, [], "", none⟩, ⟨200, [], "", none⟩⟩
        "20250101" "msg" ["teams", "call"] (some "+49123") none
        emptyCache).1.channels = some (ChannelResult.teamsOk r)) ∧
    ((⟨"", "v", "AC1", "", "", "wh"⟩ : Config).twilioSid = "" →
      lookupRes "call" (send_alert ⟨"", "v", "AC1", "", "", "wh"⟩
        ⟨⟨200, [], "", none⟩, ⟨200, [], "", none⟩, ⟨200, [], "", none⟩⟩
        "20250101" "msg" ["teams", "call"] (some "+49123") none
        emptyCache).1.channels = none) ∧
    ((⟨"", "v", "AC1", "", "", "wh"⟩ : Config).twilioSid ≠ "" →
      lookupRes "call" (send_alert ⟨"", "v", "AC1", "", "", "wh"⟩
        ⟨⟨200, [], "", none⟩, ⟨200, [], "", none⟩, ⟨200, [], "", none⟩⟩
        "20250101" "msg" ["teams", "call"] (some "+49123") none
        emptyCache).1.channels =
      some (ChannelResult.err
        (errString ⟨503, "Twilio not configured"⟩))) :=
  alert_teams_call_telephony_disabled _ _ _ _ _ _ _ (by decide)
    (Or.inl rfl) (Or.inl rfl) rfl (by decide)

end GSVoice
